import Mathlib

/-!
Verification of the mean-reversion signal processor
(`src/app/processor.py` of stock-backtest-meanreversion).

The module is embedded shallowly:

* Python dicts become association lists `Msg := List (String × Value)`,
  looked up by first occurrence (a Python dict never holds a key twice,
  so first-occurrence lookup is faithful on images of real dicts).
* Python floats become exact rationals `Rat`.
* `float(v)` coercion becomes the partial `coerceFloat : Value → Option Rat`
  (it raises in Python on non-numeric values, hence `Option`).
* Division by zero raises `ZeroDivisionError` in Python, so
  `compute_meanreversion_signal` returns `Option`: `none` models a raise.
* `round(x, 4)` is Python's round-half-to-even to 4 decimal places,
  embedded exactly on rationals by `round4`.
* Logging calls are recorded as a returned `List LogEntry`, in the order
  the source emits them.
* The external schema collaborator `validate_message_schema` is passed to
  `validate_input_message` as a boolean-valued parameter, matching the
  collaborator interface `validate_schema(mapping) -> boolean`.
-/

namespace StockMeanReversion

/-- A value stored in a message field. -/
inductive Value where
  | vstr (s : String)
  | vnum (q : Rat)
  | vbool (b : Bool)
  | vnull
deriving DecidableEq, Repr

/-- A message: a string-keyed mapping, embedded as an association list. -/
abbrev Msg := List (String × Value)

/-- One emitted log record, with the interpolated arguments. -/
inductive LogEntry where
  | debugMsg (fmt : String)
  | errorMsg (fmt : String) (arg : Msg)
  | infoMsg (fmt : String) (arg : Value)
  | debugDict (fmt : String) (arg1 : Value) (arg2 : Msg)
deriving DecidableEq, Repr

/-- Python's `message.get(key, default)`. -/
def dictGet (m : Msg) (k : String) (d : Value) : Value :=
  match m.lookup k with
  | some v => v
  | none => d

/-- Python's `float(v)` on a message value: numbers pass through,
booleans coerce to 0/1, anything else raises (`none`). -/
def coerceFloat : Value → Option Rat
  | .vstr _ => none
  | .vnum q => some q
  | .vbool b => some (if b then 1 else 0)
  | .vnull => none

/-- Python's `{**m, **r}`: keys of `m` keep their position but take the
value from `r` on collision; keys only in `r` are appended. -/
def pyMerge (m r : Msg) : Msg :=
  (m.map fun p => (p.1, ((r.lookup p.1).getD p.2))) ++
    r.filter fun p => ((m.lookup p.1).isNone)

/-- Round-half-to-even to the nearest integer (Python banker's rounding). -/
def roundHalfEven (q : Rat) : Int :=
  if q - ⌊q⌋ < 1/2 then ⌊q⌋
  else if 1/2 < q - ⌊q⌋ then ⌊q⌋ + 1
  else if ⌊q⌋ % 2 = 0 then ⌊q⌋ else ⌊q⌋ + 1

/-- Python's `round(q, 4)`. -/
def round4 (q : Rat) : Rat := (roundHalfEven (q * 10000) : Int) / 10000

/-- `validate_input_message` (processor.py lines 16-33): logs a debug
line, asks the schema collaborator, and on rejection logs the offending
message and raises `ValueError("Invalid message format")`; on success
returns the input unchanged. The collaborator is a parameter. -/
def validate_input_message (validate_message_schema : Msg → Bool)
    (message : Msg) : Except String Msg × List LogEntry :=
  if validate_message_schema message then
    (Except.ok message, [.debugMsg "🔍 Validating message schema..."])
  else
    (Except.error "Invalid message format",
      [.debugMsg "🔍 Validating message schema...",
       .errorMsg "❌ Invalid message schema: %s" message])

/-- The signal string (processor.py lines 53-55). -/
def mr_signal (deviation : Rat) : String :=
  if deviation < -(0.03 : Rat) then "REVERT_UP"
  else if (0.03 : Rat) < deviation then "REVERT_DOWN"
  else "NEUTRAL"

/-- The `result` dict (processor.py lines 57-60). -/
def mr_result (deviation : Rat) : Msg :=
  [("mean_reversion_deviation", .vnum (round4 deviation)),
   ("mean_reversion_signal", .vstr (mr_signal deviation))]

/-- `compute_meanreversion_signal` (processor.py lines 36-63): reads
`symbol`/`price`/`moving_average` with defaults, coerces the numeric
fields, computes the deviation and signal, and returns `{**message,
**result}` together with the emitted logs. `none` models a raised
exception: failed `float()` coercion, or `ZeroDivisionError` when
`moving_avg` is zero. -/
def compute_meanreversion_signal (message : Msg) :
    Option (Msg × List LogEntry) :=
  let symbol := dictGet message "symbol" (.vstr "UNKNOWN")
  match coerceFloat (dictGet message "price" (.vnum 100)),
        coerceFloat (dictGet message "moving_average" (.vnum 100)) with
  | some price, some moving_avg =>
    if moving_avg = 0 then none
    else
      let deviation := (price - moving_avg) / moving_avg
      some (pyMerge message (mr_result deviation),
        [.infoMsg "↩️ Computing mean reversion signal for %s" symbol,
         .debugDict "📉 Mean reversion result for %s: %s" symbol
           (mr_result deviation)])
  | _, _ => none

/-! ### Lookup lemmas for the association-list dict model -/

theorem lookup_append (l₁ l₂ : Msg) (k : String) :
    (l₁ ++ l₂).lookup k = ((l₁.lookup k).or (l₂.lookup k)) := by
  induction l₁ with
  | nil => rfl
  | cons a t ih =>
    obtain ⟨k₁, v₁⟩ := a
    cases h : (k == k₁) <;> simp [List.lookup, h, ih, Option.or]

theorem lookup_map_getD (m r : Msg) (k : String) :
    ((m.map fun p => (p.1, ((r.lookup p.1).getD p.2))).lookup k)
      = ((m.lookup k).map fun v => ((r.lookup k).getD v)) := by
  induction m with
  | nil => rfl
  | cons a t ih =>
    obtain ⟨k₁, v₁⟩ := a
    cases h : (k == k₁) with
    | false => simp [List.lookup, h, ih]
    | true =>
      have hk : k = k₁ := eq_of_beq h
      subst hk
      simp [List.lookup]

theorem lookup_filter_isNone (m r : Msg) (k : String) :
    ((r.filter fun p => ((m.lookup p.1).isNone)).lookup k)
      = if (m.lookup k).isNone then r.lookup k else none := by
  induction r with
  | nil => simp [List.filter]
  | cons a t ih =>
    obtain ⟨k₁, v₁⟩ := a
    cases h : (k == k₁) with
    | false =>
      cases hm : (m.lookup k₁).isNone <;>
        simp [List.filter, List.lookup, h, hm, ih]
    | true =>
      have hk : k = k₁ := eq_of_beq h
      subst hk
      cases hm : (m.lookup k).isNone <;>
        simp [List.filter, List.lookup, hm, ih]

theorem pyMerge_lookup (m r : Msg) (k : String) :
    (pyMerge m r).lookup k = ((r.lookup k).or (m.lookup k)) := by
  unfold pyMerge
  rw [lookup_append, lookup_map_getD, lookup_filter_isNone]
  cases hm : m.lookup k <;> cases hr : r.lookup k <;>
    simp [Option.getD, Option.or]

theorem pyMerge_lookup_right (m r : Msg) (k : String) (v : Value)
    (h : r.lookup k = some v) : (pyMerge m r).lookup k = some v := by
  rw [pyMerge_lookup, h]; rfl

theorem mr_result_lookup_dev (d : Rat) :
    (mr_result d).lookup "mean_reversion_deviation"
      = some (.vnum (round4 d)) := rfl

theorem mr_result_lookup_sig (d : Rat) :
    (mr_result d).lookup "mean_reversion_signal"
      = some (.vstr (mr_signal d)) := rfl

theorem mr_result_lookup_other (k : String) (d : Rat)
    (h1 : k ≠ "mean_reversion_deviation")
    (h2 : k ≠ "mean_reversion_signal") :
    (mr_result d).lookup k = none := by
  have b1 : (k == "mean_reversion_deviation") = false :=
    beq_eq_false_iff_ne.mpr h1
  have b2 : (k == "mean_reversion_signal") = false :=
    beq_eq_false_iff_ne.mpr h2
  simp [mr_result, List.lookup, b1, b2]

/-! ### Unfolding lemmas for the signal computer -/

theorem compute_eq_some (m : Msg) (p a : Rat)
    (hp : coerceFloat (dictGet m "price" (.vnum 100)) = some p)
    (ha : coerceFloat (dictGet m "moving_average" (.vnum 100)) = some a)
    (h0 : a ≠ 0) :
    compute_meanreversion_signal m =
      some (pyMerge m (mr_result ((p - a) / a)),
        [.infoMsg "↩️ Computing mean reversion signal for %s"
           (dictGet m "symbol" (.vstr "UNKNOWN")),
         .debugDict "📉 Mean reversion result for %s: %s"
           (dictGet m "symbol" (.vstr "UNKNOWN"))
           (mr_result ((p - a) / a))]) := by
  unfold compute_meanreversion_signal
  rw [hp, ha]
  simp [h0]

theorem compute_none_of_price (m : Msg)
    (hp : coerceFloat (dictGet m "price" (.vnum 100)) = none) :
    compute_meanreversion_signal m = none := by
  unfold compute_meanreversion_signal
  rw [hp]

theorem compute_none_of_ma (m : Msg)
    (ha : coerceFloat (dictGet m "moving_average" (.vnum 100)) = none) :
    compute_meanreversion_signal m = none := by
  rcases hp : coerceFloat (dictGet m "price" (.vnum 100)) with _ | p <;>
    simp [compute_meanreversion_signal, hp, ha]

theorem compute_ma_zero (m : Msg)
    (ha : coerceFloat (dictGet m "moving_average" (.vnum 100)) = some 0) :
    compute_meanreversion_signal m = none := by
  rcases hp : coerceFloat (dictGet m "price" (.vnum 100)) with _ | p <;>
    simp [compute_meanreversion_signal, hp, ha]

/-! ### Rounding and classification lemmas -/

theorem roundHalfEven_intCast (n : Int) : roundHalfEven (n : Rat) = n := by
  unfold roundHalfEven
  rw [Int.floor_intCast]
  norm_num

theorem roundHalfEven_low (q : Rat) (n : Int)
    (h1 : (n : Rat) ≤ q) (h2 : q < (n : Rat) + 1/2) :
    roundHalfEven q = n := by
  have hf : ⌊q⌋ = n := Int.floor_eq_iff.mpr ⟨h1, by linarith⟩
  unfold roundHalfEven
  rw [hf, if_pos (by linarith)]

theorem round4_of_mul (q : Rat) (n : Int) (h : q * 10000 = (n : Rat)) :
    round4 q = (n : Rat) / 10000 := by
  unfold round4
  rw [h, roundHalfEven_intCast]

theorem round4_zero : round4 0 = 0 := by
  have h := round4_of_mul 0 0 (by norm_num)
  simpa using h

theorem mr_signal_eq_iffs (d : Rat) :
    (mr_signal d = "REVERT_UP" ↔ d < -(0.03 : Rat)) ∧
    (mr_signal d = "REVERT_DOWN" ↔ (0.03 : Rat) < d) ∧
    (mr_signal d = "NEUTRAL" ↔ (-(0.03 : Rat) ≤ d ∧ d ≤ (0.03 : Rat))) := by
  have s1 : ("REVERT_UP" : String) ≠ "REVERT_DOWN" := by decide
  have s2 : ("REVERT_UP" : String) ≠ "NEUTRAL" := by decide
  have s3 : ("REVERT_DOWN" : String) ≠ "REVERT_UP" := by decide
  have s4 : ("REVERT_DOWN" : String) ≠ "NEUTRAL" := by decide
  have s5 : ("NEUTRAL" : String) ≠ "REVERT_UP" := by decide
  have s6 : ("NEUTRAL" : String) ≠ "REVERT_DOWN" := by decide
  by_cases h1 : d < -(0.03 : Rat)
  · have h2 : ¬ ((0.03 : Rat) < d) := by linarith
    have h3 : ¬ (-(0.03 : Rat) ≤ d) := by linarith
    simp [mr_signal, h1, h2, h3, s1, s2]
  · by_cases h2 : (0.03 : Rat) < d
    · have h3 : ¬ (d ≤ (0.03 : Rat)) := by linarith
      simp [mr_signal, h1, h2, h3, s3, s4]
    · have h3 : -(0.03 : Rat) ≤ d := by linarith
      have h4 : d ≤ (0.03 : Rat) := by linarith
      simp [mr_signal, h1, h2, h3, h4, s5, s6]

theorem mr_signal_zero : mr_signal 0 = "NEUTRAL" := by
  unfold mr_signal
  norm_num

/-! ### Claims -/

/-- C1: for every validated message whose `moving_average` coerces to a
nonzero float (and whose `price` coerces), `compute_meanreversion_signal`
assigns `mean_reversion_signal` from exactly one of three mutually
exclusive, collectively exhaustive cases on
`deviation = (price - moving_average) / moving_average`: REVERT_UP iff
`deviation < -0.03`, REVERT_DOWN iff `deviation > 0.03`, NEUTRAL iff
`-0.03 ≤ deviation ≤ 0.03`; in particular a deviation of exactly
`-0.03` or `0.03` yields NEUTRAL. -/
theorem C1_signal_trichotomy (m : Msg) (p a : Rat)
    (hp : coerceFloat (dictGet m "price" (.vnum 100)) = some p)
    (ha : coerceFloat (dictGet m "moving_average" (.vnum 100)) = some a)
    (h0 : a ≠ 0) :
    ∃ out logs, compute_meanreversion_signal m = some (out, logs) ∧
      ∃ s, out.lookup "mean_reversion_signal" = some (.vstr s) ∧
        (s = "REVERT_UP" ↔ (p - a) / a < -(0.03 : Rat)) ∧
        (s = "REVERT_DOWN" ↔ (0.03 : Rat) < (p - a) / a) ∧
        (s = "NEUTRAL" ↔
          (-(0.03 : Rat) ≤ (p - a) / a ∧ (p - a) / a ≤ (0.03 : Rat))) := by
  obtain ⟨i1, i2, i3⟩ := mr_signal_eq_iffs ((p - a) / a)
  exact ⟨_, _, compute_eq_some m p a hp ha h0,
    mr_signal ((p - a) / a),
    pyMerge_lookup_right _ _ _ _ (mr_result_lookup_sig _), i1, i2, i3⟩

theorem C1_witness :
    coerceFloat (dictGet [("price", Value.vnum 103),
        ("moving_average", Value.vnum 100)] "price" (Value.vnum 100))
      = some 103 ∧
    coerceFloat (dictGet [("price", Value.vnum 103),
        ("moving_average", Value.vnum 100)] "moving_average"
        (Value.vnum 100)) = some 100 ∧
    (100 : Rat) ≠ 0 ∧
    (∃ out logs,
      compute_meanreversion_signal [("price", Value.vnum 103),
        ("moving_average", Value.vnum 100)] = some (out, logs) ∧
      ∃ s, out.lookup "mean_reversion_signal" = some (.vstr s) ∧
        (s = "REVERT_UP" ↔ ((103 : Rat) - 100) / 100 < -(0.03 : Rat)) ∧
        (s = "REVERT_DOWN" ↔ (0.03 : Rat) < ((103 : Rat) - 100) / 100) ∧
        (s = "NEUTRAL" ↔
          (-(0.03 : Rat) ≤ ((103 : Rat) - 100) / 100 ∧
            ((103 : Rat) - 100) / 100 ≤ (0.03 : Rat)))) :=
  ⟨rfl, rfl, by simp,
    C1_signal_trichotomy _ 103 100 rfl rfl (by simp)⟩

/-- C2: for every validated message with nonzero (coercible)
`moving_average` and coercible `price`, the output field
`mean_reversion_deviation` equals
`(price - moving_average) / moving_average` rounded to 4 decimal places
by `round4`, the exact round-half-to-even rounding to 4 decimals. -/
theorem C2_rounded_deviation (m : Msg) (p a : Rat)
    (hp : coerceFloat (dictGet m "price" (.vnum 100)) = some p)
    (ha : coerceFloat (dictGet m "moving_average" (.vnum 100)) = some a)
    (h0 : a ≠ 0) :
    ∃ out logs, compute_meanreversion_signal m = some (out, logs) ∧
      out.lookup "mean_reversion_deviation"
        = some (.vnum (round4 ((p - a) / a))) :=
  ⟨_, _, compute_eq_some m p a hp ha h0,
    pyMerge_lookup_right _ _ _ _ (mr_result_lookup_dev _)⟩

theorem C2_witness :
    coerceFloat (dictGet [("price", Value.vnum 104),
        ("moving_average", Value.vnum 100)] "price" (Value.vnum 100))
      = some 104 ∧
    coerceFloat (dictGet [("price", Value.vnum 104),
        ("moving_average", Value.vnum 100)] "moving_average"
        (Value.vnum 100)) = some 100 ∧
    (100 : Rat) ≠ 0 ∧
    (∃ out logs,
      compute_meanreversion_signal [("price", Value.vnum 104),
        ("moving_average", Value.vnum 100)] = some (out, logs) ∧
      out.lookup "mean_reversion_deviation"
        = some (.vnum (round4 (((104 : Rat) - 100) / 100)))) :=
  ⟨rfl, rfl, by simp, C2_rounded_deviation _ 104 100 rfl rfl (by simp)⟩

/-- C3: `validate_input_message` fails (with the
`ValueError("Invalid message format")` kind) iff the schema collaborator
returns `false`; when the collaborator returns `true` it returns the
input mapping unchanged; on failure the offending message is logged. -/
theorem C3_validator_gate (validate_message_schema : Msg → Bool)
    (message : Msg) :
    ((∃ e, (validate_input_message validate_message_schema message).1
        = .error e)
      ↔ validate_message_schema message = false) ∧
    (validate_message_schema message = true →
      (validate_input_message validate_message_schema message).1
        = .ok message) ∧
    (validate_message_schema message = false →
      LogEntry.errorMsg "❌ Invalid message schema: %s" message
        ∈ (validate_input_message validate_message_schema message).2) := by
  cases h : validate_message_schema message <;>
    simp [validate_input_message, h]

theorem C3_witness :
    (∃ e, (validate_input_message (fun _ => false) []).1 = .error e) ∧
    (validate_input_message (fun _ => true)
        [("price", Value.vnum 1)]).1 = .ok [("price", Value.vnum 1)] :=
  ⟨(C3_validator_gate (fun _ => false) []).1.mpr rfl,
    (C3_validator_gate (fun _ => true) [("price", Value.vnum 1)]).2.1 rfl⟩

/-- C4: if the `moving_average` field of a validated message resolves
(after default substitution and float coercion) to zero, the deviation
computation divides by zero and `compute_meanreversion_signal` does not
return an enriched message (`none` models the unguarded
`ZeroDivisionError`). -/
theorem C4_moving_average_zero (m : Msg)
    (ha : coerceFloat (dictGet m "moving_average" (.vnum 100)) = some 0) :
    compute_meanreversion_signal m = none :=
  compute_ma_zero m ha

theorem C4_witness :
    coerceFloat (dictGet [("moving_average", Value.vnum 0)]
        "moving_average" (Value.vnum 100)) = some 0 ∧
    compute_meanreversion_signal [("moving_average", Value.vnum 0)]
      = none :=
  ⟨rfl, C4_moving_average_zero _ rfl⟩

/-- C5: the output of `compute_meanreversion_signal` is the input with
exactly the two computed keys merged in: every other key keeps its value
(by lookup), and on a collision with `mean_reversion_deviation` or
`mean_reversion_signal` the computed value wins. -/
theorem C5_frame_preservation (m : Msg) (p a : Rat)
    (hp : coerceFloat (dictGet m "price" (.vnum 100)) = some p)
    (ha : coerceFloat (dictGet m "moving_average" (.vnum 100)) = some a)
    (h0 : a ≠ 0) :
    ∃ out logs, compute_meanreversion_signal m = some (out, logs) ∧
      (∀ k, k ≠ "mean_reversion_deviation" →
        k ≠ "mean_reversion_signal" → out.lookup k = m.lookup k) ∧
      out.lookup "mean_reversion_deviation"
        = some (.vnum (round4 ((p - a) / a))) ∧
      out.lookup "mean_reversion_signal"
        = some (.vstr (mr_signal ((p - a) / a))) := by
  refine ⟨_, _, compute_eq_some m p a hp ha h0, ?_,
    pyMerge_lookup_right _ _ _ _ (mr_result_lookup_dev _),
    pyMerge_lookup_right _ _ _ _ (mr_result_lookup_sig _)⟩
  intro k h1 h2
  rw [pyMerge_lookup, mr_result_lookup_other k _ h1 h2]
  rfl

theorem C5_witness :
    coerceFloat (dictGet [("symbol", Value.vstr "AAPL"),
        ("price", Value.vnum 110), ("moving_average", Value.vnum 100)]
        "price" (Value.vnum 100)) = some 110 ∧
    coerceFloat (dictGet [("symbol", Value.vstr "AAPL"),
        ("price", Value.vnum 110), ("moving_average", Value.vnum 100)]
        "moving_average" (Value.vnum 100)) = some 100 ∧
    (100 : Rat) ≠ 0 ∧
    (∃ out logs,
      compute_meanreversion_signal [("symbol", Value.vstr "AAPL"),
        ("price", Value.vnum 110), ("moving_average", Value.vnum 100)]
        = some (out, logs) ∧
      (∀ k, k ≠ "mean_reversion_deviation" →
        k ≠ "mean_reversion_signal" →
        out.lookup k = (([("symbol", Value.vstr "AAPL"),
          ("price", Value.vnum 110),
          ("moving_average", Value.vnum 100)] : Msg).lookup k)) ∧
      out.lookup "mean_reversion_deviation"
        = some (.vnum (round4 (((110 : Rat) - 100) / 100))) ∧
      out.lookup "mean_reversion_signal"
        = some (.vstr (mr_signal (((110 : Rat) - 100) / 100)))) :=
  ⟨rfl, rfl, by simp,
    C5_frame_preservation _ 110 100 rfl rfl (by simp)⟩

/-- C6: absent fields are replaced by defaults (`price` and
`moving_average` by `100.0`, `symbol` by `"UNKNOWN"`, the latter visible
only in the log); with both numeric fields missing the deviation is `0`
and the signal NEUTRAL. -/
theorem C6_default_substitution (m : Msg)
    (hp : m.lookup "price" = none)
    (ha : m.lookup "moving_average" = none) :
    ∃ out logs, compute_meanreversion_signal m = some (out, logs) ∧
      out.lookup "mean_reversion_deviation" = some (.vnum 0) ∧
      out.lookup "mean_reversion_signal" = some (.vstr "NEUTRAL") ∧
      (m.lookup "symbol" = none →
        logs.head? = some (.infoMsg
          "↩️ Computing mean reversion signal for %s"
          (.vstr "UNKNOWN"))) := by
  have hd1 : dictGet m "price" (.vnum 100) = .vnum 100 := by
    unfold dictGet; rw [hp]
  have hd2 : dictGet m "moving_average" (.vnum 100) = .vnum 100 := by
    unfold dictGet; rw [ha]
  have hdev : ((100 : Rat) - 100) / 100 = 0 := by norm_num
  refine ⟨_, _,
    compute_eq_some m 100 100 (by rw [hd1]; rfl) (by rw [hd2]; rfl)
      (by norm_num),
    ?_, ?_, ?_⟩
  · rw [hdev, pyMerge_lookup_right _ _ _ _ (mr_result_lookup_dev 0),
      round4_zero]
  · rw [hdev, pyMerge_lookup_right _ _ _ _ (mr_result_lookup_sig 0),
      mr_signal_zero]
  · intro hs
    simp [dictGet, hs]

theorem C6_witness :
    (([] : Msg).lookup "price" = none) ∧
    (([] : Msg).lookup "moving_average" = none) ∧
    (∃ out logs,
      compute_meanreversion_signal ([] : Msg) = some (out, logs) ∧
      out.lookup "mean_reversion_deviation" = some (.vnum 0) ∧
      out.lookup "mean_reversion_signal" = some (.vstr "NEUTRAL") ∧
      (([] : Msg).lookup "symbol" = none →
        logs.head? = some (.infoMsg
          "↩️ Computing mean reversion signal for %s"
          (.vstr "UNKNOWN")))) :=
  ⟨rfl, rfl, C6_default_substitution [] rfl rfl⟩

/-- C7: the three concrete boundary inputs from the spec: price 103 over
moving average 100 gives deviation `0.03` and NEUTRAL; price 103.01
gives deviation `0.0301` and REVERT_DOWN; price 96.9 gives deviation
`-0.031` and REVERT_UP. -/
theorem C7_boundary_examples :
    ((compute_meanreversion_signal [("price", Value.vnum 103),
        ("moving_average", Value.vnum 100)]).map
      (fun r => ((r.1).lookup "mean_reversion_deviation",
        (r.1).lookup "mean_reversion_signal")))
      = some (some (.vnum (3/100)), some (.vstr "NEUTRAL")) ∧
    ((compute_meanreversion_signal [("price", Value.vnum 103.01),
        ("moving_average", Value.vnum 100)]).map
      (fun r => ((r.1).lookup "mean_reversion_deviation",
        (r.1).lookup "mean_reversion_signal")))
      = some (some (.vnum (301/10000)), some (.vstr "REVERT_DOWN")) ∧
    ((compute_meanreversion_signal [("price", Value.vnum 96.9),
        ("moving_average", Value.vnum 100)]).map
      (fun r => ((r.1).lookup "mean_reversion_deviation",
        (r.1).lookup "mean_reversion_signal")))
      = some (some (.vnum (-(31/1000))), some (.vstr "REVERT_UP")) := by
  refine ⟨?_, ?_, ?_⟩
  · rw [compute_eq_some [("price", Value.vnum 103),
      ("moving_average", Value.vnum 100)] 103 100 rfl rfl (by norm_num)]
    have hd : ((103 : Rat) - 100) / 100 = 3/100 := by norm_num
    have hr : round4 ((3 : Rat)/100) = 3/100 := by
      rw [round4_of_mul (3/100) 300 (by norm_num)]
      norm_num
    have hs : mr_signal ((3 : Rat)/100) = "NEUTRAL" := by
      unfold mr_signal
      rw [if_neg (by norm_num), if_neg (by norm_num)]
    simp only [Option.map_some']
    rw [pyMerge_lookup_right _ _ _ _ (mr_result_lookup_dev _),
      pyMerge_lookup_right _ _ _ _ (mr_result_lookup_sig _), hd, hr, hs]
  · rw [compute_eq_some [("price", Value.vnum 103.01),
      ("moving_average", Value.vnum 100)] 103.01 100 rfl rfl
      (by norm_num)]
    have hd : ((103.01 : Rat) - 100) / 100 = 301/10000 := by norm_num
    have hr : round4 ((301 : Rat)/10000) = 301/10000 := by
      rw [round4_of_mul (301/10000) 301 (by norm_num)]
      norm_num
    have hs : mr_signal ((301 : Rat)/10000) = "REVERT_DOWN" := by
      unfold mr_signal
      rw [if_neg (by norm_num), if_pos (by norm_num)]
    simp only [Option.map_some']
    rw [pyMerge_lookup_right _ _ _ _ (mr_result_lookup_dev _),
      pyMerge_lookup_right _ _ _ _ (mr_result_lookup_sig _), hd, hr, hs]
  · rw [compute_eq_some [("price", Value.vnum 96.9),
      ("moving_average", Value.vnum 100)] 96.9 100 rfl rfl
      (by norm_num)]
    have hd : ((96.9 : Rat) - 100) / 100 = -(31/1000) := by norm_num
    have hr : round4 (-((31 : Rat)/1000)) = -(31/1000) := by
      rw [round4_of_mul (-(31/1000)) (-310) (by norm_num)]
      norm_num
    have hs : mr_signal (-((31 : Rat)/1000)) = "REVERT_UP" := by
      unfold mr_signal
      rw [if_pos (by norm_num)]
    simp only [Option.map_some']
    rw [pyMerge_lookup_right _ _ _ _ (mr_result_lookup_dev _),
      pyMerge_lookup_right _ _ _ _ (mr_result_lookup_sig _), hd, hr, hs]

/-- C8: `compute_meanreversion_signal` is deterministic (identical
inputs give identical outputs), and the two computed output fields
depend only on the `price` and `moving_average` fields. -/
theorem C8_determinism (m₁ m₂ : Msg)
    (hp : m₁.lookup "price" = m₂.lookup "price")
    (ha : m₁.lookup "moving_average" = m₂.lookup "moving_average") :
    (∀ n₁ n₂ : Msg, n₁ = n₂ →
      compute_meanreversion_signal n₁ = compute_meanreversion_signal n₂) ∧
    ((compute_meanreversion_signal m₁).map
        (fun r => ((r.1).lookup "mean_reversion_deviation",
          (r.1).lookup "mean_reversion_signal")))
      = ((compute_meanreversion_signal m₂).map
        (fun r => ((r.1).lookup "mean_reversion_deviation",
          (r.1).lookup "mean_reversion_signal"))) := by
  constructor
  · intro n₁ n₂ hn
    rw [hn]
  · have e1 : dictGet m₁ "price" (.vnum 100)
        = dictGet m₂ "price" (.vnum 100) := by
      unfold dictGet; rw [hp]
    have e2 : dictGet m₁ "moving_average" (.vnum 100)
        = dictGet m₂ "moving_average" (.vnum 100) := by
      unfold dictGet; rw [ha]
    rcases hcp : coerceFloat (dictGet m₂ "price" (.vnum 100)) with _ | p
    · rw [compute_none_of_price m₁ (by rw [e1, hcp]),
        compute_none_of_price m₂ hcp]
    · rcases hca : coerceFloat (dictGet m₂ "moving_average" (.vnum 100))
        with _ | a
      · rw [compute_none_of_ma m₁ (by rw [e2, hca]),
          compute_none_of_ma m₂ hca]
      · by_cases h0 : a = 0
        · subst h0
          rw [compute_ma_zero m₁ (by rw [e2, hca]),
            compute_ma_zero m₂ hca]
        · rw [compute_eq_some m₁ p a (by rw [e1, hcp]) (by rw [e2, hca])
            h0, compute_eq_some m₂ p a hcp hca h0]
          simp only [Option.map_some']
          rw [pyMerge_lookup_right m₁ _ _ _ (mr_result_lookup_dev _),
            pyMerge_lookup_right m₂ _ _ _ (mr_result_lookup_dev _),
            pyMerge_lookup_right m₁ _ _ _ (mr_result_lookup_sig _),
            pyMerge_lookup_right m₂ _ _ _ (mr_result_lookup_sig _)]

theorem C8_witness :
    (([("price", Value.vnum 102), ("symbol", Value.vstr "A")] : Msg).lookup
        "price"
      = ([("price", Value.vnum 102)] : Msg).lookup "price") ∧
    (([("price", Value.vnum 102), ("symbol", Value.vstr "A")] : Msg).lookup
        "moving_average"
      = ([("price", Value.vnum 102)] : Msg).lookup "moving_average") ∧
    ((compute_meanreversion_signal
        [("price", Value.vnum 102), ("symbol", Value.vstr "A")]).map
        (fun r => ((r.1).lookup "mean_reversion_deviation",
          (r.1).lookup "mean_reversion_signal")))
      = ((compute_meanreversion_signal [("price", Value.vnum 102)]).map
        (fun r => ((r.1).lookup "mean_reversion_deviation",
          (r.1).lookup "mean_reversion_signal"))) :=
  ⟨rfl, rfl,
    (C8_determinism [("price", Value.vnum 102), ("symbol", Value.vstr "A")]
      [("price", Value.vnum 102)] rfl rfl).2⟩

/-- C9: classification happens on the unrounded deviation while the
output stores the rounded one: at price 103.004 over moving average 100
the exact deviation 0.03004 rounds to a stored value of 0.03 — on the
boundary — yet the signal is REVERT_DOWN. -/
theorem C9_classified_unrounded :
    ((compute_meanreversion_signal [("price", Value.vnum 103.004),
        ("moving_average", Value.vnum 100)]).map
      (fun r => ((r.1).lookup "mean_reversion_deviation",
        (r.1).lookup "mean_reversion_signal")))
      = some (some (.vnum (3/100)), some (.vstr "REVERT_DOWN")) := by
  rw [compute_eq_some [("price", Value.vnum 103.004),
    ("moving_average", Value.vnum 100)] 103.004 100 rfl rfl
    (by norm_num)]
  have hd : ((103.004 : Rat) - 100) / 100 = 3004/100000 := by norm_num
  have hr : round4 ((3004 : Rat)/100000) = 3/100 := by
    unfold round4
    have hm : ((3004 : Rat)/100000) * 10000 = 300.4 := by norm_num
    rw [hm, roundHalfEven_low 300.4 300 (by norm_num) (by norm_num)]
    norm_num
  have hs : mr_signal ((3004 : Rat)/100000) = "REVERT_DOWN" := by
    unfold mr_signal
    rw [if_neg (by norm_num), if_pos (by norm_num)]
  simp only [Option.map_some']
  rw [pyMerge_lookup_right _ _ _ _ (mr_result_lookup_dev _),
    pyMerge_lookup_right _ _ _ _ (mr_result_lookup_sig _), hd, hr, hs]

/-- C10: the `"UNKNOWN"` default for `symbol` is never written into the
result: when the input lacks the key `symbol`, so does the output; the
default only reaches the log. -/
theorem C10_symbol_default_not_written (m : Msg) (out : Msg)
    (logs : List LogEntry)
    (hs : m.lookup "symbol" = none)
    (h : compute_meanreversion_signal m = some (out, logs)) :
    out.lookup "symbol" = none ∧
      LogEntry.infoMsg "↩️ Computing mean reversion signal for %s"
        (.vstr "UNKNOWN") ∈ logs := by
  rcases hcp : coerceFloat (dictGet m "price" (.vnum 100)) with _ | p
  · rw [compute_none_of_price m hcp] at h
    exact absurd h (by simp)
  · rcases hca : coerceFloat (dictGet m "moving_average" (.vnum 100))
      with _ | a
    · rw [compute_none_of_ma m hca] at h
      exact absurd h (by simp)
    · by_cases h0 : a = 0
      · subst h0
        rw [compute_ma_zero m hca] at h
        exact absurd h (by simp)
      · rw [compute_eq_some m p a hcp hca h0] at h
        simp only [Option.some.injEq, Prod.mk.injEq] at h
        obtain ⟨h1, h2⟩ := h
        subst h1
        subst h2
        constructor
        · rw [pyMerge_lookup,
            mr_result_lookup_other "symbol" _ (by decide) (by decide),
            hs]
          rfl
        · have hu : dictGet m "symbol" (.vstr "UNKNOWN")
              = .vstr "UNKNOWN" := by
            unfold dictGet; rw [hs]
          rw [hu]
          exact List.mem_cons_self _ _

theorem C10_witness :
    (([] : Msg).lookup "symbol" = none) ∧
    ((pyMerge ([] : Msg)
        (mr_result (((100 : Rat) - 100) / 100))).lookup "symbol" = none ∧
      LogEntry.infoMsg "↩️ Computing mean reversion signal for %s"
          (.vstr "UNKNOWN")
        ∈ [LogEntry.infoMsg "↩️ Computing mean reversion signal for %s"
            (.vstr "UNKNOWN"),
           LogEntry.debugDict "📉 Mean reversion result for %s: %s"
            (.vstr "UNKNOWN")
            (mr_result (((100 : Rat) - 100) / 100))]) :=
  ⟨rfl, C10_symbol_default_not_written [] _ _ rfl rfl⟩

end StockMeanReversion
